import Mathlib

/-!
# Crypto-Algo-Guesser: the orchestration layer

A shallow embedding of `src/backend/controllers/cryptoController.js`
(`guessAlgorithm`, `getAlgorithms`, `healthCheck`) and of the statistics grid of
`src/frontend/src/components/CipherForm.jsx`.

The handlers are `async` functions that talk to an HTTP backend through axios and
answer through the Express response object.  They are embedded as pure functions of
the request body and of an environment (what the backend answers, what the clock
reads); the result records the response that was sent and the backend calls that were
issued, in order.  Console output is not part of the result, but the exceptions that
evaluating a logged expression can raise are, because the surrounding `try` turns
them into a response.
-/

namespace CryptoAlgoGuesser

/-! ## JavaScript values -/

/-- A number as a JSON text writes it: `mantissa × 10 ^ exponent`.  `NaN` has no JSON
text and is left out.  Within the range of a double the value is zero exactly when the
mantissa is. -/
structure JsNum where
  mantissa : Int
  exponent : Int
deriving DecidableEq, Repr

/-- The values a handler meets: what `JSON.parse` produces, and `undefined` for a
property that is not there.  An object is its property list in source order; a later
entry for a key overrides an earlier one, as in an object literal. -/
inductive JsVal where
  | undefined : JsVal
  | null : JsVal
  | bool (b : Bool) : JsVal
  | num (n : JsNum) : JsVal
  | str (s : String) : JsVal
  | arr (items : List JsVal) : JsVal
  | obj (props : List (String × JsVal)) : JsVal
deriving Repr

/-- An integer as a JavaScript number. -/
def JsNum.ofInt (i : Int) : JsNum := ⟨i, 0⟩

/-- The value of property `k` in a property list: the last entry for `k` wins. -/
def lookupProp (k : String) : List (String × JsVal) → Option JsVal
  | [] => none
  | (k', v) :: rest =>
    match lookupProp k rest with
    | some w => some w
    | none => if k' = k then some v else none

/-- Property read `v.k` for a key `k` that no prototype defines (every key the program
reads from parsed JSON: `ciphertext`, `algorithm`, the statistics of `features`).
Only an object can have such a property; on every other value the read gives
`undefined`.  Reading from `null` or `undefined` throws and is handled where it can
happen. -/
def getProp (v : JsVal) (k : String) : JsVal :=
  match v with
  | .obj props => (lookupProp k props).getD .undefined
  | _ => .undefined

/-- JavaScript truthiness (`if (v)`, `!v`, `v ? a : b`). -/
def truthy : JsVal → Bool
  | .undefined => false
  | .null => false
  | .bool b => b
  | .num n => n.mantissa != 0
  | .str s => s != ""
  | .arr _ => true
  | .obj _ => true

mutual
/-- Whether `ToString(v)` returns, as a template literal needs.  A parsed object has
no callable property, so an own `toString` entry hides `Object.prototype.toString` and
the conversion throws a TypeError; an array joins the conversions of its elements. -/
def canPrint : JsVal → Bool
  | .arr items => canPrintAll items
  | .obj props => (lookupProp "toString" props).isNone
  | _ => true
/-- Every element of an array can be joined (`null` and `undefined` print as the empty
string). -/
def canPrintAll : List JsVal → Bool
  | [] => true
  | x :: rest => canPrint x && canPrintAll rest
end

/-- Own enumerable properties of the items of an array or the characters of a
string, keyed by index from `i` on. -/
def indexProps (i : Nat) : List JsVal → List (String × JsVal)
  | [] => []
  | x :: rest => (toString i, x) :: indexProps (i + 1) rest

/-- The properties that `...v` copies into an object literal, in order: the own
properties of an object, the indexed items of an array, the indexed characters of a
string (one per character; a character outside the basic plane takes two indices in
JavaScript), nothing for the other values. -/
def spread : JsVal → List (String × JsVal)
  | .obj props => props
  | .arr items => indexProps 0 items
  | .str s => indexProps 0 (s.toList.map fun c => .str c.toString)
  | _ => []

/-! ## Exceptions, backend, responses -/

/-- What a `catch (error)` block reads from the thrown value: `error.code` (set by
axios on a failed request, absent on a TypeError) and `error.message`. -/
structure JsError where
  code : Option String
  message : String
deriving DecidableEq, Repr

/-- A TypeError raised by the engine: it has no `code`. -/
def typeError (message : String) : JsError := ⟨none, message⟩

/-- One request sent to the classification backend through axios. -/
structure BackendCall where
  method : String
  url : String
  data : Option JsVal
deriving Repr

/-- What the handler sent through `res`: the status (200 unless `res.status` was
called) and the value given to `res.json`. -/
structure Response where
  status : Nat
  body : JsVal
deriving Repr

/-- The observable result of running a handler once. -/
structure Outcome where
  response : Response
  calls : List BackendCall
deriving Repr

/-- Everything outside the handler that it depends on: the environment variable
`ML_SERVICE_URL`, what axios resolves to (`response.data`) or rejects with for a
request, and what `new Date().toISOString()` returns. -/
structure Env where
  mlServiceUrlVar : Option String
  axios : BackendCall → Except JsError JsVal
  now : String

/-- The constant `ML_SERVICE_URL`: `process.env.ML_SERVICE_URL || "http://localhost:5001"`. -/
def ML_SERVICE_URL (env : Env) : String :=
  match env.mlServiceUrlVar with
  | some u => if u != "" then u else "http://localhost:5001"
  | none => "http://localhost:5001"

/-! ## `cryptoController.js` -/

/-- The destructuring `const { ciphertext } = req.body`: a TypeError when the body is
`undefined` or `null`, the property (or `undefined`) otherwise. -/
def destructureCiphertext (body : JsVal) : Except JsError JsVal :=
  match body with
  | .undefined =>
    .error (typeError "Cannot destructure property 'ciphertext' of 'req.body' as it is undefined.")
  | .null =>
    .error (typeError "Cannot destructure property 'ciphertext' of 'req.body' as it is null.")
  | b => .ok (getProp b "ciphertext")

/-- Evaluation of `ciphertext.substring(0, 50)` for the first log line.  Only a string
has the method; the preview itself goes to the console only. -/
def previewCiphertext (ciphertext : JsVal) : Except JsError Unit :=
  match ciphertext with
  | .str _ => .ok ()
  | .undefined => .error (typeError "Cannot read properties of undefined (reading 'substring')")
  | .null => .error (typeError "Cannot read properties of null (reading 'substring')")
  | _ => .error (typeError "ciphertext.substring is not a function")

/-- Evaluation of the template literal with `response.data.algorithm` for the second
log line: reading a property of `null` or `undefined` throws, and so does printing a
value that has no string conversion. -/
def printAlgorithm (data : JsVal) : Except JsError Unit :=
  match data with
  | .undefined => .error (typeError "Cannot read properties of undefined (reading 'algorithm')")
  | .null => .error (typeError "Cannot read properties of null (reading 'algorithm')")
  | d =>
    if canPrint (getProp d "algorithm") then .ok ()
    else .error (typeError "Cannot convert object to primitive value")

/-- The `catch` block of `guessAlgorithm`. -/
def guessAlgorithmCatch (error : JsError) : Response :=
  if error.code = some "ECONNREFUSED" then
    ⟨503, .obj [("error", .str "ML prediction service is unavailable"),
                ("details", .str "Please ensure the ML service is running on port 5000")]⟩
  else
    ⟨500, .obj [("error", .str "Failed to predict algorithm"),
                ("details", .str error.message)]⟩

/-- The request `axios.post(ML_SERVICE_URL + "/predict", { ciphertext })`. -/
def predictCall (env : Env) (ciphertext : JsVal) : BackendCall :=
  ⟨"POST", ML_SERVICE_URL env ++ "/predict", some (.obj [("ciphertext", ciphertext)])⟩

/-- The handler `guessAlgorithm(req, res)` on `req.body`. -/
def guessAlgorithm (env : Env) (body : JsVal) : Outcome :=
  match destructureCiphertext body with
  | .error e => ⟨guessAlgorithmCatch e, []⟩
  | .ok ciphertext =>
    if !truthy ciphertext then
      ⟨⟨400, .obj [("error", .str "Ciphertext is required")]⟩, []⟩
    else
      match previewCiphertext ciphertext with
      | .error e => ⟨guessAlgorithmCatch e, []⟩
      | .ok _ =>
        match env.axios (predictCall env ciphertext) with
        | .error e => ⟨guessAlgorithmCatch e, [predictCall env ciphertext]⟩
        | .ok data =>
          match printAlgorithm data with
          | .error e => ⟨guessAlgorithmCatch e, [predictCall env ciphertext]⟩
          | .ok _ =>
            ⟨⟨200, .obj ([("success", .bool true)] ++ spread data
                          ++ [("timestamp", .str env.now)])⟩,
             [predictCall env ciphertext]⟩

/-- What `guessAlgorithm` does once the backend has been called. -/
def afterPredict (env : Env) (ciphertext : JsVal) : Outcome :=
  match env.axios (predictCall env ciphertext) with
  | .error e => ⟨guessAlgorithmCatch e, [predictCall env ciphertext]⟩
  | .ok data =>
    match printAlgorithm data with
    | .error e => ⟨guessAlgorithmCatch e, [predictCall env ciphertext]⟩
    | .ok _ =>
      ⟨⟨200, .obj ([("success", .bool true)] ++ spread data ++ [("timestamp", .str env.now)])⟩,
       [predictCall env ciphertext]⟩

/-- The response of the `catch` block to the TypeError of the first log line. -/
def previewFailure : Outcome :=
  ⟨⟨500, .obj [("error", .str "Failed to predict algorithm"),
               ("details", .str "ciphertext.substring is not a function")]⟩, []⟩

/-- The request `axios.get(ML_SERVICE_URL + "/algorithms")`. -/
def algorithmsCall (env : Env) : BackendCall :=
  ⟨"GET", ML_SERVICE_URL env ++ "/algorithms", none⟩

/-- The handler `getAlgorithms(req, res)`. -/
def getAlgorithms (env : Env) : Outcome :=
  match env.axios (algorithmsCall env) with
  | .ok data => ⟨⟨200, data⟩, [algorithmsCall env]⟩
  | .error _ =>
    ⟨⟨500, .obj [("error", .str "Failed to fetch supported algorithms")]⟩, [algorithmsCall env]⟩

/-- The request `axios.get(ML_SERVICE_URL + "/health")`. -/
def healthCall (env : Env) : BackendCall :=
  ⟨"GET", ML_SERVICE_URL env ++ "/health", none⟩

/-- The handler `healthCheck(req, res)`. -/
def healthCheck (env : Env) : Outcome :=
  match env.axios (healthCall env) with
  | .ok data =>
    ⟨⟨200, .obj [("status", .str "healthy"), ("service", .str "Crypto Guessing Backend"),
                 ("ml_service", data), ("timestamp", .str env.now)]⟩, [healthCall env]⟩
  | .error e =>
    ⟨⟨503, .obj [("status", .str "unhealthy"), ("service", .str "Crypto Guessing Backend"),
                 ("ml_service", .str "unavailable"), ("error", .str e.message)]⟩,
     [healthCall env]⟩

/-! ## `CipherForm.jsx`: the statistics grid -/

/-- What one `feature-value` span shows: a literal text, or `x.toFixed(digits)`. -/
inductive Shown where
  | text (s : String) : Shown
  | fixed (x : JsNum) (digits : Nat) : Shown
deriving DecidableEq, Repr

/-- The expression `features.k ? features.k.toFixed(digits) : 'N/A'` of the grid, for
a `features` value that passed the guard `result.features &&`.  Only a number has
`toFixed`; on any other truthy value the call throws and rendering fails. -/
def renderStat (features : JsVal) (k : String) (digits : Nat) : Except JsError Shown :=
  if truthy (getProp features k) then
    match getProp features k with
    | .num x => .ok (.fixed x digits)
    | _ => .error (typeError ("result.features." ++ k ++ ".toFixed is not a function"))
  else .ok (.text "N/A")

/-- The six statistics of the grid with the digits each is shown with. -/
def statFields : List (String × Nat) :=
  [("alpha_ratio", 2), ("digit_ratio", 2), ("symbol_ratio", 2), ("entropy", 2),
   ("ic", 3), ("chi_square", 1)]

/-! ## Environments used in the examples -/

/-- A backend that answers every request with the same payload. -/
def envAnswering (data : JsVal) : Env := ⟨none, fun _ => .ok data, "2024-05-01T10:00:00.000Z"⟩

/-- A backend on which every request fails with the same error. -/
def envFailing (e : JsError) : Env := ⟨none, fun _ => .error e, "2024-05-01T10:00:00.000Z"⟩

/-- The payload of the Caesar scenario:
`{"algorithm":"Caesar","confidence":0.92,"algorithm_probabilities":{"Caesar":92,"Vigenere":8},
"features":{"length":11,"alpha_ratio":0.91}}`. -/
def caesarPayload : JsVal :=
  .obj [("algorithm", .str "Caesar"), ("confidence", .num ⟨92, -2⟩),
        ("algorithm_probabilities",
          .obj [("Caesar", .num (.ofInt 92)), ("Vigenere", .num (.ofInt 8))]),
        ("features", .obj [("length", .num (.ofInt 11)), ("alpha_ratio", .num ⟨91, -2⟩)])]

/-- The payload `{"algorithm": {"toString": "x"}, "features": {"length": 11}}`: a JSON
object whose algorithm label has no string conversion. -/
def unprintablePayload : JsVal :=
  .obj [("algorithm", .obj [("toString", .str "x")]),
        ("features", .obj [("length", .num (.ofInt 11))])]

/-- The request body `{"ciphertext": c}`. -/
def bodyWith (c : JsVal) : JsVal := .obj [("ciphertext", c)]

/-- The response of a rejected request: `res.status(400).json({ error: ... })`. -/
def rejection : Outcome := ⟨⟨400, .obj [("error", .str "Ciphertext is required")]⟩, []⟩

/-! ## Property lists -/

theorem lookupProp_append (k : String) (xs ys : List (String × JsVal)) :
    lookupProp k (xs ++ ys) = (lookupProp k ys).or (lookupProp k xs) := by
  induction xs with
  | nil => cases h : lookupProp k ys <;> simp [lookupProp, Option.or, h]
  | cons p rest ih =>
    obtain ⟨k', v⟩ := p
    have step : lookupProp k ((k', v) :: (rest ++ ys)) =
        match lookupProp k (rest ++ ys) with
        | some w => some w
        | none => if k' = k then some v else none := rfl
    rw [List.cons_append, step, ih]
    cases h : lookupProp k ys <;> simp [Option.or, lookupProp]

theorem lookupProp_singleton (k k' : String) (v : JsVal) :
    lookupProp k [(k', v)] = if k' = k then some v else none := by
  simp [lookupProp]

/-! ## The path of a request that passes validation -/

theorem destructureCiphertext_of_str (body : JsVal) (s : String)
    (hb : getProp body "ciphertext" = .str s) :
    destructureCiphertext body = .ok (.str s) := by
  cases body <;> simp_all [getProp, destructureCiphertext]

theorem truthy_str (s : String) (hs : s ≠ "") : truthy (.str s) = true := by
  simp [truthy, hs]

theorem guessAlgorithm_of_str (env : Env) (body : JsVal) (s : String) (hs : s ≠ "")
    (hb : getProp body "ciphertext" = .str s) :
    guessAlgorithm env body = afterPredict env (.str s) := by
  unfold guessAlgorithm afterPredict
  rw [destructureCiphertext_of_str body s hb]
  simp only [truthy_str s hs, previewCiphertext]
  rfl

theorem afterPredict_calls (env : Env) (c : JsVal) :
    (afterPredict env c).calls = [predictCall env c] := by
  unfold afterPredict
  split
  · rfl
  · split <;> rfl

theorem afterPredict_ok (env : Env) (c data : JsVal)
    (hok : env.axios (predictCall env c) = .ok data) (hlog : printAlgorithm data = .ok ()) :
    (afterPredict env c).response =
      ⟨200, .obj ([("success", .bool true)] ++ spread data ++ [("timestamp", .str env.now)])⟩ := by
  unfold afterPredict
  rw [hok]
  simp only [hlog]

theorem afterPredict_error (env : Env) (c : JsVal) (e : JsError)
    (herr : env.axios (predictCall env c) = .error e) :
    (afterPredict env c).response = guessAlgorithmCatch e := by
  unfold afterPredict
  rw [herr]

theorem guessAlgorithm_of_nonString (env : Env) (props : List (String × JsVal))
    (ht : truthy (getProp (.obj props) "ciphertext") = true)
    (hn : ∀ s, getProp (.obj props) "ciphertext" ≠ .str s) :
    guessAlgorithm env (.obj props) = previewFailure := by
  cases hc : getProp (.obj props) "ciphertext" with
  | str s => exact absurd hc (hn s)
  | undefined => rw [hc] at ht; simp [truthy] at ht
  | null => rw [hc] at ht; simp [truthy] at ht
  | bool b =>
    rw [hc] at ht
    simp [guessAlgorithm, destructureCiphertext, hc, ht, previewCiphertext,
      guessAlgorithmCatch, typeError, previewFailure]
  | num n =>
    rw [hc] at ht
    simp [guessAlgorithm, destructureCiphertext, hc, ht, previewCiphertext,
      guessAlgorithmCatch, typeError, previewFailure]
  | arr items =>
    simp [guessAlgorithm, destructureCiphertext, hc, truthy, previewCiphertext,
      guessAlgorithmCatch, typeError, previewFailure]
  | obj ps =>
    simp [guessAlgorithm, destructureCiphertext, hc, truthy, previewCiphertext,
      guessAlgorithmCatch, typeError, previewFailure]

/-! ## Validation -/

/-- C1, as the code has it: a request with a JSON-object body is answered with status
400, body `{error: "Ciphertext is required"}` and no backend call exactly when its
`ciphertext` is falsy, that is absent, the empty string, `null`, `false` or `0`.  No
trimming takes part: a non-empty string, also one of whitespace only, is not rejected. -/
theorem guessAlgorithm_rejects_iff_falsy (env : Env) (props : List (String × JsVal)) :
    guessAlgorithm env (.obj props) = rejection ↔
      truthy (getProp (.obj props) "ciphertext") = false := by
  constructor
  · intro h
    cases ht : truthy (getProp (.obj props) "ciphertext") with
    | false => rfl
    | true =>
      exfalso
      by_cases hstr : ∃ s, getProp (.obj props) "ciphertext" = .str s
      · obtain ⟨s, hc⟩ := hstr
        have hs : s ≠ "" := by
          intro hs0
          rw [hc, hs0] at ht
          simp [truthy] at ht
        have hcalls := congrArg Outcome.calls h
        rw [guessAlgorithm_of_str env _ s hs hc, afterPredict_calls] at hcalls
        simp [rejection] at hcalls
      · have hn : ∀ s, getProp (.obj props) "ciphertext" ≠ .str s :=
          fun s hc => hstr ⟨s, hc⟩
        rw [guessAlgorithm_of_nonString env props ht hn] at h
        have hst := congrArg (fun o => o.response.status) h
        simp [previewFailure, rejection] at hst
  · intro h
    simp [guessAlgorithm, destructureCiphertext, h, rejection]

/-- Witness for C1: the body `{}` and the body `{"ciphertext": ""}` are rejected. -/
theorem guessAlgorithm_rejects_iff_falsy_witness :
    guessAlgorithm (envAnswering caesarPayload) (.obj []) = rejection ∧
    guessAlgorithm (envAnswering caesarPayload) (.obj [("ciphertext", .str "")]) = rejection :=
  ⟨(guessAlgorithm_rejects_iff_falsy (envAnswering caesarPayload) []).2 rfl,
   (guessAlgorithm_rejects_iff_falsy (envAnswering caesarPayload)
      [("ciphertext", .str "")]).2 rfl⟩

/-- C1 fails for a whitespace-only ciphertext: `"   "` is sent to the backend and the
backend's answer is relayed with status 200. -/
theorem guessAlgorithm_whitespace_not_rejected :
    (guessAlgorithm (envAnswering caesarPayload) (bodyWith (.str "   "))).response.status = 200 ∧
    (guessAlgorithm (envAnswering caesarPayload) (bodyWith (.str "   "))).calls =
      [⟨"POST", "http://localhost:5001/predict", some (.obj [("ciphertext", .str "   ")])⟩] :=
  ⟨rfl, rfl⟩

/-- C2: for a non-empty string ciphertext the handler issues exactly one backend call,
the POST to `/predict`, and its body is `{ciphertext: s}` with the string as received. -/
theorem guessAlgorithm_one_predict_call (env : Env) (body : JsVal) (s : String)
    (hs : s ≠ "") (hb : getProp body "ciphertext" = .str s) :
    (guessAlgorithm env body).calls =
      [⟨"POST", ML_SERVICE_URL env ++ "/predict", some (.obj [("ciphertext", .str s)])⟩] := by
  rw [guessAlgorithm_of_str env body s hs hb, afterPredict_calls]
  rfl

/-- Witness for C2 on a backend that fails: the padded string goes out untrimmed, once. -/
theorem guessAlgorithm_one_predict_call_witness :
    (guessAlgorithm (envFailing ⟨some "ERR_BAD_RESPONSE", "Request failed with status code 500"⟩)
        (bodyWith (.str "  KHOOR ZRUOG  "))).calls =
      [⟨"POST", ML_SERVICE_URL (envFailing ⟨some "ERR_BAD_RESPONSE",
          "Request failed with status code 500"⟩) ++ "/predict",
        some (.obj [("ciphertext", .str "  KHOOR ZRUOG  ")])⟩] :=
  guessAlgorithm_one_predict_call _ _ "  KHOOR ZRUOG  " (by decide) rfl

/-! ## Failures of the backend call -/

/-- C3, as the code has it: when axios rejects the predict call of a valid request
with error `e`, the response is 503 with the "service is unavailable" body exactly
when `e.code` is `ECONNREFUSED`; every other rejection, network unreachable included,
gives 500 with body `{error: "Failed to predict algorithm", details: d}`, `d` the
message of `e`.  Neither status is the 400 of a rejected request. -/
theorem guessAlgorithm_predict_failure (env : Env) (body : JsVal) (s : String) (e : JsError)
    (hs : s ≠ "") (hb : getProp body "ciphertext" = .str s)
    (herr : env.axios (predictCall env (.str s)) = .error e) :
    (e.code = some "ECONNREFUSED" →
      (guessAlgorithm env body).response =
        ⟨503, .obj [("error", .str "ML prediction service is unavailable"),
                    ("details", .str "Please ensure the ML service is running on port 5000")]⟩) ∧
    (e.code ≠ some "ECONNREFUSED" →
      (guessAlgorithm env body).response =
        ⟨500, .obj [("error", .str "Failed to predict algorithm"),
                    ("details", .str e.message)]⟩) ∧
    (guessAlgorithm env body).response.status ≠ 400 := by
  rw [guessAlgorithm_of_str env body s hs hb, afterPredict_error env _ e herr]
  unfold guessAlgorithmCatch
  refine ⟨fun h => by simp [h], fun h => by simp [h], ?_⟩
  split <;> simp

/-- Witness for C3 on a backend that refuses the connection. -/
theorem guessAlgorithm_predict_failure_witness :
    (guessAlgorithm (envFailing ⟨some "ECONNREFUSED", "connect ECONNREFUSED 127.0.0.1:5001"⟩)
        (bodyWith (.str "KHOOR ZRUOG"))).response =
      ⟨503, .obj [("error", .str "ML prediction service is unavailable"),
                  ("details", .str "Please ensure the ML service is running on port 5000")]⟩ :=
  (guessAlgorithm_predict_failure
    (envFailing ⟨some "ECONNREFUSED", "connect ECONNREFUSED 127.0.0.1:5001"⟩)
    (bodyWith (.str "KHOOR ZRUOG")) "KHOOR ZRUOG"
    ⟨some "ECONNREFUSED", "connect ECONNREFUSED 127.0.0.1:5001"⟩ (by decide) rfl rfl).1 rfl

/-- C3 fails in two places.  When the network is unreachable the backend could not be
connected to, the failure's code is `ENETUNREACH`, and the response is 500, not 503.
When the backend answers with a malformed payload (the text `oops` instead of a
prediction object) axios resolves, nothing is caught, and the response is 200. -/
theorem guessAlgorithm_unreachable_is_500 :
    (guessAlgorithm (envFailing ⟨some "ENETUNREACH", "connect ENETUNREACH 10.0.0.7:5001"⟩)
        (bodyWith (.str "KHOOR ZRUOG"))).response =
      ⟨500, .obj [("error", .str "Failed to predict algorithm"),
                  ("details", .str "connect ENETUNREACH 10.0.0.7:5001")]⟩ ∧
    (guessAlgorithm (envAnswering (.str "oops")) (bodyWith (.str "KHOOR ZRUOG"))).response.status
      = 200 :=
  ⟨rfl, rfl⟩

/-! ## The success envelope -/

/-- C4, as the code has it: on a successful predict call whose payload the completion
log can print, the response has status 200 and its `success` field is `true` when the
payload has no property `success`; when it has one, the payload's value is in the
response, because the payload is spread after `success: true`. -/
theorem guessAlgorithm_success_field (env : Env) (body : JsVal) (s : String) (data : JsVal)
    (hs : s ≠ "") (hb : getProp body "ciphertext" = .str s)
    (hok : env.axios (predictCall env (.str s)) = .ok data)
    (hlog : printAlgorithm data = .ok ()) :
    (guessAlgorithm env body).response.status = 200 ∧
    getProp (guessAlgorithm env body).response.body "success" =
      (lookupProp "success" (spread data)).getD (.bool true) := by
  rw [guessAlgorithm_of_str env body s hs hb, afterPredict_ok env _ data hok hlog]
  refine ⟨rfl, ?_⟩
  simp only [getProp, lookupProp_append, lookupProp_singleton]
  cases lookupProp "success" (spread data) <;> simp [Option.or]

/-- Witness for C4 on the Caesar scenario: the payload has no `success`, the response
has `success: true`. -/
theorem guessAlgorithm_success_field_witness :
    getProp (guessAlgorithm (envAnswering caesarPayload)
        (bodyWith (.str "KHOOR ZRUOG"))).response.body "success" = .bool true :=
  (guessAlgorithm_success_field (envAnswering caesarPayload) (bodyWith (.str "KHOOR ZRUOG"))
    "KHOOR ZRUOG" caesarPayload (by decide) rfl rfl rfl).2

/-- C4 fails for a payload with its own `success`: the backend's `false` reaches the
caller in a 200 response. -/
theorem guessAlgorithm_success_overridden :
    (guessAlgorithm (envAnswering (.obj [("success", .bool false), ("algorithm", .str "Caesar")]))
        (bodyWith (.str "KHOOR ZRUOG"))).response.status = 200 ∧
    getProp (guessAlgorithm
        (envAnswering (.obj [("success", .bool false), ("algorithm", .str "Caesar")]))
        (bodyWith (.str "KHOOR ZRUOG"))).response.body "success" = .bool false :=
  ⟨rfl, rfl⟩

/-- C5 fails for a payload whose algorithm label cannot be printed: the completion log
line throws after the backend call, the `catch` block answers 500, and the payload's
`features` is not in the response, whose keys are `error` and `details`. -/
theorem guessAlgorithm_unprintable_not_relayed :
    (guessAlgorithm (envAnswering unprintablePayload) (bodyWith (.str "KHOOR ZRUOG"))).response =
      ⟨500, .obj [("error", .str "Failed to predict algorithm"),
                  ("details", .str "Cannot convert object to primitive value")]⟩ ∧
    getProp unprintablePayload "features" = .obj [("length", .num (.ofInt 11))] ∧
    getProp (guessAlgorithm (envAnswering unprintablePayload)
      (bodyWith (.str "KHOOR ZRUOG"))).response.body "features" = .undefined :=
  ⟨rfl, rfl, rfl⟩

/-- C5, as the code has it: on a successful predict call whose payload is a JSON object
with an algorithm label the completion log can print, the response has status 200 and
its body is an object in which every key other than `success` and `timestamp` has
exactly the payload's value or, like the payload, none; every key of the response is `success`,
`timestamp` or a key of the payload; `features` in particular is relayed as it came,
absent when the payload has none. -/
theorem guessAlgorithm_relays_payload (env : Env) (body : JsVal) (s : String)
    (payload : List (String × JsVal))
    (hs : s ≠ "") (hb : getProp body "ciphertext" = .str s)
    (hok : env.axios (predictCall env (.str s)) = .ok (.obj payload))
    (hlog : printAlgorithm (.obj payload) = .ok ()) :
    ∃ out : List (String × JsVal),
      (guessAlgorithm env body).response = ⟨200, .obj out⟩ ∧
      (∀ k, k ≠ "success" → k ≠ "timestamp" → lookupProp k out = lookupProp k payload) ∧
      (∀ k, lookupProp k out ≠ none →
        k = "success" ∨ k = "timestamp" ∨ lookupProp k payload ≠ none) ∧
      lookupProp "features" out = lookupProp "features" payload := by
  have key : ∀ k, k ≠ "success" → k ≠ "timestamp" →
      lookupProp k ([("success", .bool true)] ++ payload ++ [("timestamp", .str env.now)]) =
        lookupProp k payload := by
    intro k h1 h2
    simp only [lookupProp_append, lookupProp_singleton, if_neg (Ne.symm h1),
      if_neg (Ne.symm h2)]
    cases lookupProp k payload <;> simp [Option.or]
  refine ⟨[("success", .bool true)] ++ payload ++ [("timestamp", .str env.now)], ?_, key, ?_, ?_⟩
  · rw [guessAlgorithm_of_str env body s hs hb, afterPredict_ok env _ _ hok hlog]
    rfl
  · intro k hk
    by_cases h1 : k = "success"
    · exact Or.inl h1
    by_cases h2 : k = "timestamp"
    · exact Or.inr (Or.inl h2)
    rw [key k h1 h2] at hk
    exact Or.inr (Or.inr hk)
  · exact key "features" (by decide) (by decide)

/-- Witness for C5: a payload without `features` gives a response without `features`. -/
theorem guessAlgorithm_relays_payload_witness :
    ∃ out : List (String × JsVal),
      (guessAlgorithm (envAnswering (.obj [("algorithm", .str "Caesar")]))
        (bodyWith (.str "KHOOR ZRUOG"))).response = ⟨200, .obj out⟩ ∧
      lookupProp "features" out = none := by
  obtain ⟨out, h, _, _, hf⟩ :=
    guessAlgorithm_relays_payload (envAnswering (.obj [("algorithm", .str "Caesar")]))
      (bodyWith (.str "KHOOR ZRUOG")) "KHOOR ZRUOG" [("algorithm", .str "Caesar")]
      (by decide) rfl rfl rfl
  exact ⟨out, h, hf.trans rfl⟩

/-- C6 fails for the payload `null`: the completion log line throws on
`response.data.algorithm` after the backend call, the `catch` block answers 500, and
the response has no `timestamp`. -/
theorem guessAlgorithm_null_payload_no_timestamp :
    guessAlgorithm (envAnswering .null) (bodyWith (.str "KHOOR ZRUOG")) =
      ⟨⟨500, .obj [("error", .str "Failed to predict algorithm"),
                   ("details", .str "Cannot read properties of null (reading 'algorithm')")]⟩,
       [predictCall (envAnswering .null) (.str "KHOOR ZRUOG")]⟩ ∧
    getProp (guessAlgorithm (envAnswering .null)
      (bodyWith (.str "KHOOR ZRUOG"))).response.body "timestamp" = .undefined :=
  ⟨rfl, rfl⟩

/-- C6, as the code has it: on a successful predict call whose payload the completion
log can print, the response has status 200 and the `timestamp` of its body is the
orchestrator's clock reading, also when the payload has a `timestamp` of its own. -/
theorem guessAlgorithm_timestamp (env : Env) (body : JsVal) (s : String) (data : JsVal)
    (hs : s ≠ "") (hb : getProp body "ciphertext" = .str s)
    (hok : env.axios (predictCall env (.str s)) = .ok data)
    (hlog : printAlgorithm data = .ok ()) :
    (guessAlgorithm env body).response.status = 200 ∧
    getProp (guessAlgorithm env body).response.body "timestamp" = .str env.now := by
  rw [guessAlgorithm_of_str env body s hs hb, afterPredict_ok env _ data hok hlog]
  refine ⟨rfl, ?_⟩
  simp only [getProp, lookupProp_append, lookupProp_singleton]
  simp [Option.or]

/-- Witness for C6: the backend's own timestamp is replaced by the clock reading. -/
theorem guessAlgorithm_timestamp_witness :
    getProp (guessAlgorithm
        (envAnswering (.obj [("algorithm", .str "Caesar"),
          ("timestamp", .str "1999-12-31T23:59:59.000Z")]))
        (bodyWith (.str "KHOOR ZRUOG"))).response.body "timestamp" =
      .str "2024-05-01T10:00:00.000Z" :=
  (guessAlgorithm_timestamp
    (envAnswering (.obj [("algorithm", .str "Caesar"),
      ("timestamp", .str "1999-12-31T23:59:59.000Z")]))
    (bodyWith (.str "KHOOR ZRUOG")) "KHOOR ZRUOG" _ (by decide) rfl rfl rfl).2

/-! ## Auxiliary handlers -/

/-- C7: `healthCheck` has two outcomes.  When the health call succeeds with payload
`p`, the response has the default status 200 and a body with `status: "healthy"` and
`ml_service` equal to `p`; when it fails in any way, the response is 503 with body
`{status: "unhealthy", service: "Crypto Guessing Backend", ml_service: "unavailable",
error: m}`, `m` the failure's message. -/
theorem healthCheck_outcomes (env : Env) :
    (∀ p, env.axios (healthCall env) = .ok p →
      (healthCheck env).response =
        ⟨200, .obj [("status", .str "healthy"), ("service", .str "Crypto Guessing Backend"),
                    ("ml_service", p), ("timestamp", .str env.now)]⟩ ∧
      getProp (healthCheck env).response.body "status" = .str "healthy" ∧
      getProp (healthCheck env).response.body "ml_service" = p) ∧
    (∀ e, env.axios (healthCall env) = .error e →
      (healthCheck env).response =
        ⟨503, .obj [("status", .str "unhealthy"), ("service", .str "Crypto Guessing Backend"),
                    ("ml_service", .str "unavailable"), ("error", .str e.message)]⟩) ∧
    ((∃ p, env.axios (healthCall env) = .ok p) ∨ (∃ e, env.axios (healthCall env) = .error e)) := by
  refine ⟨?_, ?_, ?_⟩
  · intro p hp
    unfold healthCheck
    rw [hp]
    exact ⟨rfl, rfl, rfl⟩
  · intro e he
    unfold healthCheck
    rw [he]
  · cases h : env.axios (healthCall env) with
    | ok p => exact Or.inl ⟨p, rfl⟩
    | error e => exact Or.inr ⟨e, rfl⟩

/-- Witness for C7: one backend that reports its state and one that returns an
application error. -/
theorem healthCheck_outcomes_witness :
    getProp (healthCheck (envAnswering (.obj [("status", .str "ok"),
        ("model_loaded", .bool true)]))).response.body "ml_service" =
      .obj [("status", .str "ok"), ("model_loaded", .bool true)] ∧
    (healthCheck (envFailing ⟨some "ERR_BAD_RESPONSE",
        "Request failed with status code 500"⟩)).response =
      ⟨503, .obj [("status", .str "unhealthy"), ("service", .str "Crypto Guessing Backend"),
                  ("ml_service", .str "unavailable"),
                  ("error", .str "Request failed with status code 500")]⟩ :=
  ⟨((healthCheck_outcomes (envAnswering (.obj [("status", .str "ok"),
        ("model_loaded", .bool true)]))).1 _ rfl).2.2,
   (healthCheck_outcomes (envFailing ⟨some "ERR_BAD_RESPONSE",
        "Request failed with status code 500"⟩)).2.1 _ rfl⟩

/-- C8: `getAlgorithms` answers with the backend's payload itself as the body when the
call succeeds, and with status 500 and body
`{error: "Failed to fetch supported algorithms"}` for every failure of the call,
whatever its code, `ECONNREFUSED` included. -/
theorem getAlgorithms_outcomes (env : Env) :
    (∀ p, env.axios (algorithmsCall env) = .ok p →
      (getAlgorithms env).response = ⟨200, p⟩) ∧
    (∀ e, env.axios (algorithmsCall env) = .error e →
      (getAlgorithms env).response =
        ⟨500, .obj [("error", .str "Failed to fetch supported algorithms")]⟩) := by
  constructor
  · intro p hp
    unfold getAlgorithms
    rw [hp]
  · intro e he
    unfold getAlgorithms
    rw [he]

/-- Witness for C8: a relayed list, and a refused connection answered with 500. -/
theorem getAlgorithms_outcomes_witness :
    (getAlgorithms (envAnswering (.obj [("algorithms",
        .arr [.str "Caesar", .str "Vigenere"])]))).response =
      ⟨200, .obj [("algorithms", .arr [.str "Caesar", .str "Vigenere"])]⟩ ∧
    (getAlgorithms (envFailing ⟨some "ECONNREFUSED",
        "connect ECONNREFUSED 127.0.0.1:5001"⟩)).response =
      ⟨500, .obj [("error", .str "Failed to fetch supported algorithms")]⟩ :=
  ⟨(getAlgorithms_outcomes (envAnswering (.obj [("algorithms",
        .arr [.str "Caesar", .str "Vigenere"])]))).1 _ rfl,
   (getAlgorithms_outcomes (envFailing ⟨some "ECONNREFUSED",
        "connect ECONNREFUSED 127.0.0.1:5001"⟩)).2 _ rfl⟩

/-! ## The statistics grid -/

theorem renderStat_placeholder_iff (features : JsVal) (k : String) (digits : Nat) :
    renderStat features k digits = .ok (.text "N/A") ↔ truthy (getProp features k) = false := by
  unfold renderStat
  cases ht : truthy (getProp features k) with
  | false => simp
  | true =>
    simp only [if_true]
    cases getProp features k <;> simp

/-- C9 on the code: a `digit_ratio` that is present with the value 0 is shown as the
placeholder, and so is each of the six statistics when present with the value 0,
exactly as when it is absent. -/
theorem renderStat_zero_is_placeholder :
    renderStat (.obj [("digit_ratio", .num (.ofInt 0))]) "digit_ratio" 2 = .ok (.text "N/A") ∧
    statFields.map (fun kd => renderStat (.obj [(kd.1, .num (.ofInt 0))]) kd.1 kd.2) =
      statFields.map (fun _ => .ok (.text "N/A")) ∧
    statFields.map (fun kd => renderStat (.obj []) kd.1 kd.2) =
      statFields.map (fun _ => .ok (.text "N/A")) :=
  ⟨rfl, rfl, rfl⟩

/-! ## Non-string ciphertext -/

/-- C10 on the code: for the body `{"ciphertext": 123}` no backend call is made, but
the response is the 500 of the `catch` block, with the TypeError of the first log line
as detail, not 400. -/
theorem guessAlgorithm_number_ciphertext (env : Env) :
    guessAlgorithm env (bodyWith (.num (.ofInt 123))) =
      ⟨⟨500, .obj [("error", .str "Failed to predict algorithm"),
                   ("details", .str "ciphertext.substring is not a function")]⟩, []⟩ :=
  rfl

end CryptoAlgoGuesser
